import Mathlib

/-
Verification of the model-suggestion module
(src/analysis/steps/step6_model_suggestion.py).

The module offers two interchangeable visualization strategies
(PairPlotsStrategy and HeatmapStrategy, both exposing suggest_model) and a
context class ModelSuggester that holds one strategy and delegates to it.
The embedding below models the dataframe, the numeric-column selection and
the Pearson correlation matrix that pandas DataFrame.corr computes, the
rendered plot and printed lines of each strategy, and the context object.
Methods are modelled as state transformers: suggest_model returns the
dataframe state after the call next to its output, and the context methods
return the context state after the call, so that absence of mutation is a
provable statement rather than an assumption.
-/

namespace Step6

/-- A column of the dataframe together with its dtype: either a numeric
column (modelled with exact rationals, the real-number idealization of the
float data) or a non-numeric (object/categorical) column of strings. -/
inductive ColData where
  | num (xs : List ℚ)
  | cat (xs : List String)
  deriving DecidableEq

/-- A pandas DataFrame: an ordered list of named columns. -/
structure DataFrame where
  cols : List (String × ColData)
  deriving DecidableEq

/-- df.columns: the column names, in order. -/
def DataFrame.columns (df : DataFrame) : List String :=
  df.cols.map Prod.fst

/-- df.select_dtypes(include=["number"]): the numeric columns with their
data, in their original order; non-numeric columns are dropped. -/
def DataFrame.select_dtypes_number (df : DataFrame) : List (String × List ℚ) :=
  df.cols.filterMap (fun c =>
    match c.2 with
    | ColData.num xs => some (c.1, xs)
    | ColData.cat _ => none)

/-- The mean of a column (sum divided by length; the empty column gets the
junk value 0, as division by zero in ℚ). -/
def colMean (xs : List ℚ) : ℚ :=
  xs.sum / xs.length

/-- The column with its mean subtracted from every entry. -/
def demean (xs : List ℚ) : List ℚ :=
  xs.map (fun v => v - colMean xs)

/-- Sum of pairwise products of two columns. -/
def dot (xs ys : List ℚ) : ℚ :=
  (List.zipWith (fun a b => a * b) xs ys).sum

/-- Pearson correlation coefficient of two columns, as pandas
DataFrame.corr computes it: centered cross product divided by the square
root of the product of the centered self products. This is the real-number
idealization of the float computation; a zero denominator, which pandas
reports as NaN, here yields the junk value 0 (division by zero in ℝ). -/
noncomputable def pearson (xs ys : List ℚ) : ℝ :=
  ((dot (demean xs) (demean ys) : ℚ) : ℝ) /
    Real.sqrt (((dot (demean xs) (demean xs) : ℚ) : ℝ) *
      ((dot (demean ys) (demean ys) : ℚ) : ℝ))

/-- numerical_df.corr(): the pairwise Pearson correlation matrix of a list
of numeric columns, one row and one column per column, in column order. -/
noncomputable def corrMatrix (ncols : List (String × List ℚ)) : List (List ℝ) :=
  ncols.map (fun c => ncols.map (fun d => pearson c.2 d.2))

/-- The chart rendered by one suggest_model call: a seaborn pairplot of the
whole dataframe with an optional hue column, or a heatmap of a correlation
matrix. -/
inductive Plot where
  | pairplot (df : DataFrame) (hue : Option String)
  | heatmap (corr : List (List ℝ))

/-- The observable output of one suggest_model call: the rendered chart and
the console lines printed after it, in order. -/
structure Output where
  plot : Plot
  printed : List String

/-- A model-suggestion strategy (the ModelSuggestionStrategy contract):
suggest_model takes the dataframe and the optional target name and returns
the dataframe state after the call together with its output. -/
def Strategy :=
  DataFrame → Option String → DataFrame × Output

/-- PairPlotsStrategy.suggest_model: renders a pairplot of the dataframe,
with hue=target exactly when target is truthy (not None and not the empty
string) and is one of the dataframe columns, then prints a header and
three fixed advisory lines. The dataframe is only read, so it is returned
unchanged. -/
def PairPlotsStrategy.suggest_model : Strategy := fun df target =>
  let hue : Option String :=
    match target with
    | some s => if s ≠ "" ∧ s ∈ df.columns then some s else none
    | none => none
  (df,
    ⟨Plot.pairplot df hue,
     ["Model Suggestions based on PairPlots:",
      "- If clear separation in target classes visible: Consider classification models",
      "- If linear relationships visible: Consider linear models",
      "- If complex non-linear patterns: Consider tree-based or neural network models"]⟩)

/-- HeatmapStrategy.suggest_model: selects the numeric columns, computes
their correlation matrix, renders it as a heatmap (the target argument is
never consulted), then prints a header and three fixed advisory lines. The
dataframe is only read, so it is returned unchanged. -/
noncomputable def HeatmapStrategy.suggest_model : Strategy := fun df _target =>
  let numerical_df := df.select_dtypes_number
  let corr := corrMatrix numerical_df
  (df,
    ⟨Plot.heatmap corr,
     ["\nModel Suggestions based on Heatmap:",
      "- High correlation with target: Good for linear models",
      "- High multicollinearity: Consider regularization or feature selection",
      "- Low feature correlations: May need complex models to capture patterns"]⟩)

/-- The ModelSuggester context: holds exactly one strategy reference. -/
structure ModelSuggester where
  _strategy : Strategy

/-- ModelSuggester.set_strategy: replaces the held strategy with the given
one (the body is the single assignment self._strategy = strategy). -/
def ModelSuggester.set_strategy (_m : ModelSuggester) (s : Strategy) : ModelSuggester :=
  ModelSuggester.mk s

/-- ModelSuggester.execute_suggestion: delegates the dataframe and target
to the held strategy (the body is the single call
self._strategy.suggest_model(df, target), with no assignment, so the
context state is returned unchanged). -/
def ModelSuggester.execute_suggestion (m : ModelSuggester) (df : DataFrame)
    (target : Option String) : ModelSuggester × (DataFrame × Output) :=
  (m, m._strategy df target)

/-- The spec's running example dataset:
age = [20, 30, 40] and thefts = [1, 2, 4], both numeric. -/
def dfExample : DataFrame :=
  DataFrame.mk [("age", ColData.num [20, 30, 40]), ("thefts", ColData.num [1, 2, 4])]

/-- The example dataset extended with a categorical column, to exhibit that
non-numeric columns are excluded from the correlation computation. -/
def dfExampleWithCity : DataFrame :=
  DataFrame.mk [("age", ColData.num [20, 30, 40]), ("thefts", ColData.num [1, 2, 4]),
    ("city", ColData.cat ["Kampala", "Kampala", "Entebbe"])]

/-- A dataset with two numeric columns of which one is constant: its
centered self product is 0, so its correlation entries (pandas: NaN, here:
the junk value 0) are undefined. -/
def dfConst : DataFrame :=
  DataFrame.mk [("a", ColData.num [1, 1]), ("b", ColData.num [1, 2])]

/-- A dataset with no numeric columns at all. -/
def dfAllCat : DataFrame :=
  DataFrame.mk [("city", ColData.cat ["Kampala", "Entebbe"])]

lemma dot_nil_left (ys : List ℚ) : dot [] ys = 0 :=
  rfl

lemma dot_nil_right (xs : List ℚ) : dot xs [] = 0 := by
  cases xs <;> rfl

lemma dot_cons (a b : ℚ) (as bs : List ℚ) :
    dot (a :: as) (b :: bs) = a * b + dot as bs := by
  simp [dot]

lemma dot_comm (xs ys : List ℚ) : dot xs ys = dot ys xs := by
  unfold dot
  rw [List.zipWith_comm_of_comm (fun a b => a * b) mul_comm]

lemma dot_self_nonneg (xs : List ℚ) : 0 ≤ dot xs xs := by
  induction xs with
  | nil => simp [dot]
  | cons a as ih =>
      rw [dot_cons]
      exact add_nonneg (mul_self_nonneg a) ih

lemma cauchy_step (a b A B D : ℚ) (hA : 0 ≤ A) (hB : 0 ≤ B)
    (hD : D ^ 2 ≤ A * B) :
    (a * b + D) ^ 2 ≤ (a * a + A) * (b * b + B) := by
  rcases hA.eq_or_lt with h0 | hApos
  · have hA0 : A = 0 := h0.symm
    subst hA0
    have hD2 : D ^ 2 ≤ 0 := by simpa using hD
    have hD0 : D = 0 := sq_eq_zero_iff.mp (le_antisymm hD2 (sq_nonneg D))
    subst hD0
    nlinarith [mul_nonneg (mul_self_nonneg a) hB]
  · nlinarith [sq_nonneg (a * D - b * A),
      mul_nonneg (sq_nonneg a) (sub_nonneg.mpr hD),
      mul_nonneg hA (sub_nonneg.mpr hD)]

/-- Cauchy-Schwarz for list dot products, squared form. -/
lemma dot_sq_le (xs ys : List ℚ) : dot xs ys ^ 2 ≤ dot xs xs * dot ys ys := by
  induction xs generalizing ys with
  | nil => simp [dot_nil_left]
  | cons a as ih =>
      cases ys with
      | nil => simp [dot_nil_right]
      | cons b bs =>
          rw [dot_cons, dot_cons, dot_cons]
          exact cauchy_step a b (dot as as) (dot bs bs) (dot as bs)
            (dot_self_nonneg as) (dot_self_nonneg bs) (ih bs)

lemma pearson_comm (xs ys : List ℚ) : pearson xs ys = pearson ys xs := by
  unfold pearson
  rw [dot_comm (demean xs) (demean ys),
    mul_comm ((dot (demean xs) (demean xs) : ℚ) : ℝ)
      ((dot (demean ys) (demean ys) : ℚ) : ℝ)]

/-- A column whose centered self product is nonzero correlates with itself
exactly 1. -/
lemma pearson_self (xs : List ℚ) (h : dot (demean xs) (demean xs) ≠ 0) :
    pearson xs xs = 1 := by
  unfold pearson
  have hpos : (0 : ℝ) ≤ ((dot (demean xs) (demean xs) : ℚ) : ℝ) := by
    exact_mod_cast dot_self_nonneg (demean xs)
  have hne : ((dot (demean xs) (demean xs) : ℚ) : ℝ) ≠ 0 := by
    exact_mod_cast h
  rw [Real.sqrt_mul_self hpos, div_self hne]

/-- Every Pearson coefficient lies in [-1, 1] (a zero denominator yields
the junk value 0, also inside the interval). -/
lemma pearson_abs_le (xs ys : List ℚ) : |pearson xs ys| ≤ 1 := by
  unfold pearson
  have key : |((dot (demean xs) (demean ys) : ℚ) : ℝ)| ≤
      Real.sqrt (((dot (demean xs) (demean xs) : ℚ) : ℝ) *
        ((dot (demean ys) (demean ys) : ℚ) : ℝ)) := by
    rw [← Real.sqrt_sq_eq_abs]
    apply Real.sqrt_le_sqrt
    exact_mod_cast dot_sq_le (demean xs) (demean ys)
  rcases (Real.sqrt_nonneg (((dot (demean xs) (demean xs) : ℚ) : ℝ) *
      ((dot (demean ys) (demean ys) : ℚ) : ℝ))).eq_or_lt with hs | hs
  · rw [← hs, div_zero, abs_zero]
    exact zero_le_one
  · rw [abs_div, abs_of_pos hs, div_le_one hs]
    exact key

lemma pearson_mem_Icc (xs ys : List ℚ) :
    -1 ≤ pearson xs ys ∧ pearson xs ys ≤ 1 :=
  abs_le.mp (pearson_abs_le xs ys)

lemma getBang_map {α β : Type} [Inhabited α] [Inhabited β] (f : α → β)
    (l : List α) (i : ℕ) (h : i < l.length) :
    (List.map f l)[i]! = f l[i]! := by
  induction l generalizing i with
  | nil => simp at h
  | cons a as ih =>
      cases i with
      | zero => simp
      | succ n =>
          have hn : n < as.length := by simpa using h
          simpa using ih n hn

lemma getBang_mem {α : Type} [Inhabited α] (l : List α) (i : ℕ)
    (h : i < l.length) : l[i]! ∈ l := by
  induction l generalizing i with
  | nil => simp at h
  | cons a as ih =>
      cases i with
      | zero => simp
      | succ n =>
          have hn : n < as.length := by simpa using h
          simpa using Or.inr (ih n hn)

/-- Entry (i, j) of the correlation matrix is the Pearson coefficient of
the i-th and j-th numeric columns. -/
lemma corrMatrix_entry (ncols : List (String × List ℚ)) (i j : ℕ)
    (hi : i < ncols.length) (hj : j < ncols.length) :
    ((corrMatrix ncols)[i]!)[j]! = pearson (ncols[i]!).2 (ncols[j]!).2 := by
  unfold corrMatrix
  rw [getBang_map _ _ i hi, getBang_map _ _ j hj]

/-- C1: after set_strategy(s2) on a context that held s1, a subsequent
execute_suggestion(df, target) returns exactly s2 applied to (df, target),
and the result does not depend on the previously held strategy s1 at all. -/
theorem execute_after_set_delegates_to_new_strategy (s1 s2 : Strategy)
    (df : DataFrame) (target : Option String) :
    ((((ModelSuggester.mk s1).set_strategy s2).execute_suggestion df target).2 = s2 df target)
    ∧ ∀ s0 : Strategy,
        ((ModelSuggester.mk s1).set_strategy s2).execute_suggestion df target
          = ((ModelSuggester.mk s0).set_strategy s2).execute_suggestion df target :=
  ⟨rfl, fun _ => rfl⟩

/-- C10: execute_suggestion never changes which strategy the context holds;
set_strategy installs exactly the strategy it is given. -/
theorem execute_suggestion_preserves_held_strategy (m : ModelSuggester)
    (df : DataFrame) (target : Option String) :
    (((m.execute_suggestion df target).1)._strategy = m._strategy)
    ∧ ∀ s : Strategy, ((m.set_strategy s)._strategy) = s :=
  ⟨rfl, fun _ => rfl⟩

/-- C3: HeatmapStrategy.suggest_model never consults its target argument:
for any two target values (a valid column name, an absent name, or None)
the whole result — correlation matrix, plot and printed lines — is
identical, and no error is signalled for a valid target. -/
theorem heatmap_suggest_model_target_irrelevant (df : DataFrame)
    (t1 t2 : Option String) :
    HeatmapStrategy.suggest_model df t1 = HeatmapStrategy.suggest_model df t2 :=
  rfl

/-- C7: both strategies leave the dataframe unchanged: the dataframe state
returned by suggest_model is the dataframe that was passed in, for every
dataframe and every target. -/
theorem suggest_model_leaves_dataframe_unchanged (df : DataFrame)
    (target : Option String) :
    ((PairPlotsStrategy.suggest_model df target).1 = df)
    ∧ ((HeatmapStrategy.suggest_model df target).1 = df) :=
  ⟨rfl, rfl⟩

/-- C8: the printed advisory text of each strategy is static: on every
call, whatever the dataframe and target, each strategy prints exactly its
header line followed by its three fixed advisory lines, none of which is
derived from the data. -/
theorem printed_advice_is_fixed (df : DataFrame) (target : Option String) :
    (((PairPlotsStrategy.suggest_model df target).2).printed =
      ["Model Suggestions based on PairPlots:",
       "- If clear separation in target classes visible: Consider classification models",
       "- If linear relationships visible: Consider linear models",
       "- If complex non-linear patterns: Consider tree-based or neural network models"])
    ∧ (((HeatmapStrategy.suggest_model df target).2).printed =
      ["\nModel Suggestions based on Heatmap:",
       "- High correlation with target: Good for linear models",
       "- High multicollinearity: Consider regularization or feature selection",
       "- Low feature correlations: May need complex models to capture patterns"]) :=
  ⟨rfl, rfl⟩

/-- C6: a target name absent from the dataframe columns behaves exactly
like passing no target at all: PairPlotsStrategy renders without hue and
the absent name is silently ignored, never signalled as an error. -/
theorem absent_target_behaves_like_none (df : DataFrame) (t : String)
    (h : t ∉ df.columns) :
    PairPlotsStrategy.suggest_model df (some t)
      = PairPlotsStrategy.suggest_model df none := by
  unfold PairPlotsStrategy.suggest_model
  simp [h]

/-- Witness for C6 at a concrete dataframe and absent column name. -/
theorem absent_target_behaves_like_none_witness :
    ("region" ∉ dfExample.columns)
    ∧ PairPlotsStrategy.suggest_model dfExample (some "region")
        = PairPlotsStrategy.suggest_model dfExample none :=
  ⟨by decide, absent_target_behaves_like_none dfExample "region" (by decide)⟩

/-- C9: the empty string is falsy, so the guard (target and target in
df.columns) fails and the pairplot is rendered without hue even when the
dataframe really contains a column named by the empty string. -/
theorem empty_string_target_gives_no_hue (df : DataFrame)
    (h : "" ∈ df.columns) :
    (PairPlotsStrategy.suggest_model df (some "")
      = PairPlotsStrategy.suggest_model df none)
    ∧ ((PairPlotsStrategy.suggest_model df (some "")).2).plot
        = Plot.pairplot df none := by
  have h1 : PairPlotsStrategy.suggest_model df (some "")
      = PairPlotsStrategy.suggest_model df none := by
    unfold PairPlotsStrategy.suggest_model
    simp
  refine ⟨h1, ?_⟩
  rw [h1]
  rfl

/-- Witness for C9 at a dataframe with an empty-string column name. -/
theorem empty_string_target_gives_no_hue_witness :
    ("" ∈ (DataFrame.mk [("", ColData.num [1, 2]), ("age", ColData.num [3, 4])]).columns)
    ∧ ((PairPlotsStrategy.suggest_model
          (DataFrame.mk [("", ColData.num [1, 2]), ("age", ColData.num [3, 4])]) (some "")
        = PairPlotsStrategy.suggest_model
          (DataFrame.mk [("", ColData.num [1, 2]), ("age", ColData.num [3, 4])]) none)
      ∧ ((PairPlotsStrategy.suggest_model
            (DataFrame.mk [("", ColData.num [1, 2]), ("age", ColData.num [3, 4])]) (some "")).2).plot
          = Plot.pairplot
            (DataFrame.mk [("", ColData.num [1, 2]), ("age", ColData.num [3, 4])]) none) :=
  ⟨by decide, empty_string_target_gives_no_hue _ (by decide)⟩

/-- C4: with zero numeric columns, selecting the numeric columns and then
correlating yields the empty 0x0 matrix (and the heatmap of the empty
matrix), not an error. -/
theorem corr_of_no_numeric_columns_is_empty (df : DataFrame)
    (target : Option String)
    (h : df.select_dtypes_number = []) :
    (corrMatrix df.select_dtypes_number = [])
    ∧ ((HeatmapStrategy.suggest_model df target).2).plot = Plot.heatmap [] := by
  constructor
  · rw [h]
    rfl
  · simp [HeatmapStrategy.suggest_model, corrMatrix, h]

/-- Witness for C4 at a dataframe with only a categorical column. -/
theorem corr_of_no_numeric_columns_is_empty_witness :
    (dfAllCat.select_dtypes_number = [])
    ∧ ((corrMatrix dfAllCat.select_dtypes_number = [])
      ∧ ((HeatmapStrategy.suggest_model dfAllCat none).2).plot = Plot.heatmap []) :=
  ⟨rfl, corr_of_no_numeric_columns_is_empty dfAllCat none rfl⟩

/-- C2 (amended): for a dataframe whose numeric columns number at least two
and each have nonzero centered self product (nonzero variance), the
correlation matrix is square with one row and one column per numeric
column, is symmetric, has exactly 1 on the diagonal, and every entry lies
in [-1, 1]. (Without the variance condition the diagonal entry of a
constant column is undefined — NaN in pandas, the junk value 0 here — and
not 1.) -/
theorem heatmap_corr_matrix_wellformed (df : DataFrame)
    (h2 : 2 ≤ df.select_dtypes_number.length)
    (hvar : ∀ c ∈ df.select_dtypes_number, dot (demean c.2) (demean c.2) ≠ 0) :
    ((corrMatrix df.select_dtypes_number).length = df.select_dtypes_number.length)
    ∧ (∀ row ∈ corrMatrix df.select_dtypes_number,
        row.length = df.select_dtypes_number.length)
    ∧ (∀ i j : ℕ, i < df.select_dtypes_number.length →
        j < df.select_dtypes_number.length →
        ((corrMatrix df.select_dtypes_number)[i]!)[j]!
          = ((corrMatrix df.select_dtypes_number)[j]!)[i]!)
    ∧ (∀ i : ℕ, i < df.select_dtypes_number.length →
        ((corrMatrix df.select_dtypes_number)[i]!)[i]! = 1)
    ∧ (∀ row ∈ corrMatrix df.select_dtypes_number, ∀ x ∈ row, -1 ≤ x ∧ x ≤ 1) := by
  refine ⟨by simp [corrMatrix], ?_, ?_, ?_, ?_⟩
  · intro row hrow
    unfold corrMatrix at hrow
    rcases List.mem_map.mp hrow with ⟨c, hc, rfl⟩
    simp
  · intro i j hi hj
    rw [corrMatrix_entry _ i j hi hj, corrMatrix_entry _ j i hj hi, pearson_comm]
  · intro i hi
    rw [corrMatrix_entry _ i i hi hi]
    exact pearson_self _ (hvar _ (getBang_mem _ i hi))
  · intro row hrow x hx
    unfold corrMatrix at hrow
    rcases List.mem_map.mp hrow with ⟨c, hc, rfl⟩
    rcases List.mem_map.mp hx with ⟨d, hd, rfl⟩
    exact pearson_mem_Icc c.2 d.2

/-- Witness for C2 at the example dataset. -/
theorem heatmap_corr_matrix_wellformed_witness :
    ((2 ≤ dfExample.select_dtypes_number.length)
      ∧ ∀ c ∈ dfExample.select_dtypes_number, dot (demean c.2) (demean c.2) ≠ 0)
    ∧ (((corrMatrix dfExample.select_dtypes_number).length
          = dfExample.select_dtypes_number.length)
      ∧ (∀ row ∈ corrMatrix dfExample.select_dtypes_number,
          row.length = dfExample.select_dtypes_number.length)
      ∧ (∀ i j : ℕ, i < dfExample.select_dtypes_number.length →
          j < dfExample.select_dtypes_number.length →
          ((corrMatrix dfExample.select_dtypes_number)[i]!)[j]!
            = ((corrMatrix dfExample.select_dtypes_number)[j]!)[i]!)
      ∧ (∀ i : ℕ, i < dfExample.select_dtypes_number.length →
          ((corrMatrix dfExample.select_dtypes_number)[i]!)[i]! = 1)
      ∧ (∀ row ∈ corrMatrix dfExample.select_dtypes_number,
          ∀ x ∈ row, -1 ≤ x ∧ x ≤ 1)) := by
  have hsel : dfExample.select_dtypes_number
      = [("age", ([20, 30, 40] : List ℚ)), ("thefts", ([1, 2, 4] : List ℚ))] := rfl
  have hvar : ∀ c ∈ dfExample.select_dtypes_number,
      dot (demean c.2) (demean c.2) ≠ 0 := by
    rw [hsel]
    norm_num [dot, demean, colMean]
  exact ⟨⟨by decide, hvar⟩,
    heatmap_corr_matrix_wellformed dfExample (by decide) hvar⟩

/-- C2 counterexample: dfConst has two numeric columns, but its first
column is constant, so the (0,0) diagonal entry of the correlation matrix
is the undefined value (NaN in pandas, the junk value 0 here), not 1. -/
theorem corr_diag_constant_column_not_one :
    (2 ≤ dfConst.select_dtypes_number.length)
    ∧ ((corrMatrix dfConst.select_dtypes_number)[0]!)[0]! ≠ 1 := by
  refine ⟨by decide, ?_⟩
  have e : dfConst.select_dtypes_number[0]! = ("a", ([1, 1] : List ℚ)) := by decide
  rw [corrMatrix_entry _ 0 0 (by decide) (by decide), e]
  have h0 : dot (demean ([1, 1] : List ℚ)) (demean ([1, 1] : List ℚ)) = 0 := by
    norm_num [dot, demean, colMean]
  unfold pearson
  norm_num [h0]

/-- C5: on the example dataset age = [20, 30, 40], thefts = [1, 2, 4], the
correlation matrix over the numeric columns is the 2x2 symmetric matrix
with 1 on the diagonal and the Pearson coefficient of the two columns off
the diagonal, that coefficient lies strictly between 0.97 and 0.99 (it is
about 0.98), and adding a non-numeric column leaves the matrix unchanged
because only numeric-typed columns are selected. -/
theorem heatmap_example_correlation :
    (corrMatrix dfExample.select_dtypes_number =
      [[1, pearson [20, 30, 40] [1, 2, 4]],
       [pearson [20, 30, 40] [1, 2, 4], 1]])
    ∧ ((97 : ℝ) / 100 < pearson [20, 30, 40] [1, 2, 4])
    ∧ (pearson [20, 30, 40] [1, 2, 4] < (99 : ℝ) / 100)
    ∧ (corrMatrix dfExampleWithCity.select_dtypes_number
        = corrMatrix dfExample.select_dtypes_number) := by
  have e1 : dot (demean ([20, 30, 40] : List ℚ)) (demean ([1, 2, 4] : List ℚ))
      = 30 := by norm_num [dot, demean, colMean]
  have e2 : dot (demean ([20, 30, 40] : List ℚ)) (demean ([20, 30, 40] : List ℚ))
      = 200 := by norm_num [dot, demean, colMean]
  have e3 : dot (demean ([1, 2, 4] : List ℚ)) (demean ([1, 2, 4] : List ℚ))
      = 14 / 3 := by norm_num [dot, demean, colMean]
  refine ⟨?_, ?_, ?_, rfl⟩
  · have haa : pearson ([20, 30, 40] : List ℚ) [20, 30, 40] = 1 :=
      pearson_self _ (by rw [e2]; norm_num)
    have htt : pearson ([1, 2, 4] : List ℚ) [1, 2, 4] = 1 :=
      pearson_self _ (by rw [e3]; norm_num)
    have hsym : pearson ([1, 2, 4] : List ℚ) [20, 30, 40]
        = pearson [20, 30, 40] [1, 2, 4] := pearson_comm _ _
    show [[pearson ([20, 30, 40] : List ℚ) [20, 30, 40],
           pearson [20, 30, 40] [1, 2, 4]],
          [pearson ([1, 2, 4] : List ℚ) [20, 30, 40],
           pearson [1, 2, 4] [1, 2, 4]]] = _
    rw [haa, htt, hsym]
  · unfold pearson
    rw [e1, e2, e3]
    push_cast
    have hs_pos : (0 : ℝ) < Real.sqrt (200 * (14 / 3)) :=
      Real.sqrt_pos.mpr (by norm_num)
    have hs_lt : Real.sqrt (200 * (14 / 3)) < 3000 / 97 := by
      rw [Real.sqrt_lt' (by norm_num)]
      norm_num
    calc (97 : ℝ) / 100 = 30 / (3000 / 97) := by norm_num
      _ < 30 / Real.sqrt (200 * (14 / 3)) :=
          div_lt_div_of_pos_left (by norm_num) hs_pos hs_lt
  · unfold pearson
    rw [e1, e2, e3]
    push_cast
    have hs_gt : (1000 : ℝ) / 33 < Real.sqrt (200 * (14 / 3)) := by
      rw [Real.lt_sqrt (by norm_num)]
      norm_num
    calc (30 : ℝ) / Real.sqrt (200 * (14 / 3)) < 30 / (1000 / 33) :=
          div_lt_div_of_pos_left (by norm_num) (by norm_num) hs_gt
      _ = 99 / 100 := by norm_num

end Step6
